import Mathlib

/-!
Verification development for the CS330 SceneManager sources
(`SceneManager.h`, `scenemanager.cpp`).

The C++ class `SceneManager` is shallowly embedded as a Lean structure
holding the texture registry and a flag recording whether the shader
manager pointer is non-null.  Calls into OpenGL, stb_image and the
`ShaderManager` setters are observable effects; they appear as `GLEvent`
values in the trace that each operation returns.  The image-loading and
`glGenTextures` outcomes are inputs to the embedded operations.

`uint32_t` values are modelled as `Nat` reduced modulo `2 ^ 32` at the
store; `(uint32_t)-1` is the constant `UINT32_MAX`.
-/

/-- The sentinel `(uint32_t)-1` used by the source for empty slots. -/
def UINT32_MAX : Nat := 4294967295

/-- A `glm::vec3` over an arbitrary scalar type. -/
structure Vec3 (R : Type) where
  x : R
  y : R
  z : R
deriving DecidableEq

/-- `glm::vec3` with rational components, for the hardcoded arguments. -/
abbrev Vec3Q := Vec3 ℚ

/-- `SceneManager::TEXTURE_INFO`: a tag string plus an OpenGL texture id. -/
structure TEXTURE_INFO where
  tag : String
  ID : Nat
deriving DecidableEq

/-- Result record of `stbi_load`: dimensions and channel count. -/
structure ImageData where
  width : Int
  height : Int
  colorChannels : Int
deriving DecidableEq

/-- The mesh kinds drawn by the scene (`ShapeMeshes` plane/box/cylinder). -/
inductive MeshKind where
  | plane
  | box
  | cylinder
deriving DecidableEq

/-- The arguments of one `SetTransformations` call, as recorded on the
uniform uploaded for `"model"`. -/
structure TransformArgs where
  scaleXYZ : Vec3Q
  XrotationDegrees : ℚ
  YrotationDegrees : ℚ
  ZrotationDegrees : ℚ
  positionXYZ : Vec3Q
deriving DecidableEq

/-- Observable effects of the embedded operations: `ShaderManager`
uniform setters, OpenGL texture calls and mesh loads/draws. -/
inductive GLEvent where
  | setMat4 (name : String) (args : TransformArgs)
  | setInt (name : String) (v : Int)
  | setSampler2D (name : String) (slot : Int)
  | setVec2 (name : String) (u v : ℚ)
  | setBool (name : String) (b : Bool)
  | setVec3 (name : String) (x y z : ℚ)
  | setFloat (name : String) (v : ℚ)
  | genTexture (id : Nat)
  | texImage2D (filename : String)
  | arrayStore (index : Nat)
  | bindTexture (unit : Nat) (id : Nat)
  | deleteTexture (id : Nat)
  | loadMesh (m : MeshKind)
  | drawMesh (m : MeshKind)
deriving DecidableEq

/-- The `SceneManager` state: the 16-element array `m_textureIDs` is the
restriction of the map to indices `0..15`; the counter `m_loadedTextures`;
and whether `m_pShaderManager` is non-null.  A store at an index `≥ 16`
is a store outside the declared array. -/
structure SceneManager where
  m_textureIDs : Nat → TEXTURE_INFO
  m_loadedTextures : Nat
  shaderPresent : Bool

/-- `SceneManager::SceneManager`: reset every slot to tag `"/0"`,
id `(uint32_t)-1`, and zero the counter. -/
def SceneManager.ctor (shaderPresent : Bool) : SceneManager where
  m_textureIDs := fun _ => ⟨"/0", UINT32_MAX⟩
  m_loadedTextures := 0
  shaderPresent := shaderPresent

/-- The unchecked store `m_textureIDs[m_loadedTextures] = ...;
m_loadedTextures++` performed on the success path of `CreateGLTexture`. -/
def SceneManager.storeTexture (st : SceneManager) (tag : String) (id : Nat) :
    SceneManager where
  m_textureIDs := fun i =>
    if i = st.m_loadedTextures then ⟨tag, id⟩ else st.m_textureIDs i
  m_loadedTextures := st.m_loadedTextures + 1
  shaderPresent := st.shaderPresent

/-- `SceneManager::CreateGLTexture`.  `img` is the `stbi_load` outcome and
`textureID` the name produced by `glGenTextures` (reduced mod `2 ^ 32`).
Returns the `bool` result, the post state, and the emitted GL calls. -/
def SceneManager.CreateGLTexture (st : SceneManager) (img : Option ImageData)
    (textureID : Nat) (filename : String) (tag : String) :
    Bool × SceneManager × List GLEvent :=
  match img with
  | none => (false, st, [])
  | some image =>
    if image.colorChannels = 3 then
      (true, st.storeTexture tag (textureID % 4294967296),
        [.genTexture (textureID % 4294967296), .texImage2D filename,
         .arrayStore st.m_loadedTextures])
    else if image.colorChannels = 4 then
      (true, st.storeTexture tag (textureID % 4294967296),
        [.genTexture (textureID % 4294967296), .texImage2D filename,
         .arrayStore st.m_loadedTextures])
    else
      (false, st, [.genTexture (textureID % 4294967296)])

/-- `SceneManager::BindGLTextures`: bind slot `i` to texture unit `i`
for every loaded slot. -/
def SceneManager.BindGLTextures (st : SceneManager) : List GLEvent :=
  (List.range st.m_loadedTextures).map fun i =>
    .bindTexture i (st.m_textureIDs i).ID

/-- The loop body of `DestroyGLTextures`, processing indices `0..n-1` in
order: delete any slot whose id differs from the sentinel and reset it. -/
def destroyLoop (ids : Nat → TEXTURE_INFO) : Nat → (Nat → TEXTURE_INFO) × List GLEvent
  | 0 => (ids, [])
  | n + 1 =>
    let r := destroyLoop ids n
    if (r.1 n).ID ≠ UINT32_MAX then
      (fun i => if i = n then ⟨"/0", UINT32_MAX⟩ else r.1 i,
        r.2 ++ [.deleteTexture (r.1 n).ID])
    else r

/-- `SceneManager::DestroyGLTextures`: reset the occupied slots, then
zero the counter. -/
def SceneManager.DestroyGLTextures (st : SceneManager) :
    SceneManager × List GLEvent :=
  let r := destroyLoop st.m_textureIDs st.m_loadedTextures
  (⟨r.1, 0, st.shaderPresent⟩, r.2)

/-- The linear search loop of `FindTextureSlot` over a list of indices:
return the first index whose slot carries `tag`, else `-1`. -/
def findSlotGo (ids : Nat → TEXTURE_INFO) (tag : String) : List Nat → Int
  | [] => -1
  | i :: rest => if (ids i).tag = tag then (i : Int) else findSlotGo ids tag rest

/-- `SceneManager::FindTextureSlot`: scan indices `0..m_loadedTextures-1`. -/
def SceneManager.FindTextureSlot (st : SceneManager) (tag : String) : Int :=
  findSlotGo st.m_textureIDs tag (List.range st.m_loadedTextures)

/-- `SceneManager::SetTransformations`: when the shader manager is
non-null, upload the model matrix built from the given arguments to the
`"model"` uniform. -/
def SceneManager.SetTransformations (st : SceneManager) (scaleXYZ : Vec3Q)
    (XrotationDegrees YrotationDegrees ZrotationDegrees : ℚ)
    (positionXYZ : Vec3Q) : List GLEvent :=
  if st.shaderPresent then
    [.setMat4 "model" ⟨scaleXYZ, XrotationDegrees, YrotationDegrees,
      ZrotationDegrees, positionXYZ⟩]
  else []

/-- `SceneManager::SetShaderTexture`: when the shader manager is non-null,
enable texturing, upload the slot found for `tag`, and the UV scale.
The state is returned unchanged: the source writes no member field. -/
def SceneManager.SetShaderTexture (st : SceneManager) (tag : String)
    (scale : ℚ) : SceneManager × List GLEvent :=
  (st,
    if st.shaderPresent then
      [.setInt "bUseTexture" 1,
       .setSampler2D "objectTexture" (st.FindTextureSlot tag),
       .setVec2 "UVscale" scale scale]
    else [])

/-- Modelled from the spec: `SetTextureUVScale` is declared in
`SceneManager.h` ("set the UV scale uniform for tiling textures") but its
definition is not among the sources; modelled as uploading the `"UVscale"`
vec2 uniform when the shader manager is non-null. -/
def SceneManager.SetTextureUVScale (st : SceneManager) (u v : ℚ) :
    List GLEvent :=
  if st.shaderPresent then [.setVec2 "UVscale" u v] else []

/-- `SceneManager::SetupSceneLights`: the lighting-constant uploads,
performed unconditionally (the source does not null-check the shader
manager here). -/
def SetupSceneLights : List GLEvent :=
  [.setBool "bUseLighting" true,
   .setVec3 "dirLight.direction" (-0.5) (-1) (-0.3),
   .setVec3 "dirLight.ambient" 0.1 0.1 0.1,
   .setVec3 "dirLight.diffuse" 0.8 0.8 0.8,
   .setVec3 "dirLight.specular" 1 1 1,
   .setVec3 "pointLight.position" 0 10 0,
   .setVec3 "pointLight.ambient" 0.05 0.05 0.05,
   .setVec3 "pointLight.diffuse" 0.5 0.5 0.5,
   .setVec3 "pointLight.specular" 0.7 0.7 0.7,
   .setFloat "pointLight.constant" 1,
   .setFloat "pointLight.linear" 0.09,
   .setFloat "pointLight.quadratic" 0.032]

/-- Environment for `LoadSceneTextures`: the `stbi_load` outcome and the
`glGenTextures` name for the `k`-th `CreateGLTexture` call. -/
structure TexEnv where
  img : Nat → Option ImageData
  texID : Nat → Nat

/-- The six file/tag pairs loaded by `LoadSceneTextures`, in source order. -/
def sceneTextureFiles : List (String × String) :=
  [("textures/wood.jpg", "wood"),
   ("textures/white_wood.jpg", "whiteWood"),
   ("textures/concrete.png", "concrete"),
   ("textures/green.png", "green"),
   ("textures/gray.png", "gray"),
   ("textures/black.png", "black")]

/-- Sequentially run `CreateGLTexture` on a list of file/tag pairs,
discarding the `bool` results as the source does. -/
def loadTexFold (env : TexEnv) : Nat → SceneManager → List (String × String) →
    SceneManager × List GLEvent
  | _, st, [] => (st, [])
  | k, st, (fn, tg) :: rest =>
    let r := st.CreateGLTexture (env.img k) (env.texID k) fn tg
    let next := loadTexFold env (k + 1) r.2.1 rest
    (next.1, r.2.2 ++ next.2)

/-- `SceneManager::LoadSceneTextures`: the six loads, then `BindGLTextures`. -/
def SceneManager.LoadSceneTextures (st : SceneManager) (env : TexEnv) :
    SceneManager × List GLEvent :=
  let r := loadTexFold env 0 st sceneTextureFiles
  (r.1, r.2 ++ r.1.BindGLTextures)

/-- `SceneManager::PrepareScene`: load textures, load the three meshes,
set up the lights. -/
def SceneManager.PrepareScene (st : SceneManager) (env : TexEnv) :
    SceneManager × List GLEvent :=
  let r := st.LoadSceneTextures env
  (r.1, r.2 ++ [.loadMesh .plane, .loadMesh .box, .loadMesh .cylinder]
    ++ SetupSceneLights)

/-- The calls `RenderScene` makes on `SceneManager` helpers and meshes. -/
inductive SceneCall where
  | setTransformations (scaleXYZ : Vec3Q)
      (XrotationDegrees YrotationDegrees ZrotationDegrees : ℚ)
      (positionXYZ : Vec3Q)
  | setShaderTexture (tag : String) (scale : ℚ)
  | setTextureUVScale (u v : ℚ)
  | drawPlaneMesh
  | drawBoxMesh
  | drawCylinderMesh
deriving DecidableEq

/-- The body of `SceneManager::RenderScene` as its literal call sequence;
`SetShaderTexture` calls written with one argument in the source use the
declared default scale `1.0`. -/
def renderSceneCalls : List SceneCall :=
  [.setTransformations ⟨50, 1, 50⟩ 0 0 0 ⟨0, -0.5, 0⟩,
   .setShaderTexture "wood" 10,
   .drawPlaneMesh,
   .setTransformations ⟨10, 4, 4⟩ 0 0 0 ⟨0, 2, 0⟩,
   .setShaderTexture "whiteWood" 2,
   .drawBoxMesh,
   .setTransformations ⟨11, 0.3, 5⟩ 0 0 0 ⟨0, 4.3, 0⟩,
   .setShaderTexture "concrete" 2,
   .drawBoxMesh,
   .setTransformations ⟨1.05, 0.06, 0.7⟩ 0 16 0 ⟨-1.4, 2.49, -0.45⟩,
   .setShaderTexture "black" 1,
   .setTextureUVScale 1 1,
   .drawBoxMesh,
   .setTransformations ⟨1.05, 0.75, 0.06⟩ (-90) 16 0 ⟨-1.4, 2.87, -0.05⟩,
   .setShaderTexture "black" 1,
   .drawBoxMesh,
   .setTransformations ⟨0.13, 0.45, 0.13⟩ 0 0 0 ⟨0, 2.57, -0.17⟩,
   .setShaderTexture "gray" 1,
   .setTextureUVScale 1 1,
   .drawCylinderMesh,
   .setTransformations ⟨0.15, 0.04, 0.15⟩ 0 0 0 ⟨0, 2.81, -0.17⟩,
   .setShaderTexture "black" 1,
   .drawCylinderMesh,
   .setTransformations ⟨0.7, 1.1, 0.35⟩ 0 (-13) 0 ⟨1.5, 2.92, 0.7⟩,
   .setShaderTexture "green" 1,
   .setTextureUVScale 1 1,
   .drawBoxMesh]

/-- Execute one `RenderScene` call against the state, yielding its events. -/
def execCall (st : SceneManager) : SceneCall → List GLEvent
  | .setTransformations s x y z p => st.SetTransformations s x y z p
  | .setShaderTexture tag scale => (st.SetShaderTexture tag scale).2
  | .setTextureUVScale u v => st.SetTextureUVScale u v
  | .drawPlaneMesh => [.drawMesh .plane]
  | .drawBoxMesh => [.drawMesh .box]
  | .drawCylinderMesh => [.drawMesh .cylinder]

/-- `SceneManager::RenderScene`: run the hardcoded call sequence; no
member field is written, so the state is unchanged. -/
def SceneManager.RenderScene (st : SceneManager) : List GLEvent :=
  (renderSceneCalls.map (execCall st)).flatten

/-- Modelled from the spec: the driver that owns the `SceneManager` is not
among the sources; per the header comments, `PrepareScene` is "called once
at startup" and `RenderScene` "called each frame", so a program run is the
preparation trace followed by some number of frame traces. -/
def programTrace (env : TexEnv) (frames : Nat) : List GLEvent :=
  let r := (SceneManager.ctor true).PrepareScene env
  r.2 ++ (List.replicate frames r.1.RenderScene).flatten

/-!
The model matrix.  GLM computes over `float`; the matrix algebra is
embedded over an arbitrary commutative ring `R` together with abstract
`cos`, `sin`, `inversesqrt` functions and the constant `π/180` that
`glm::radians` multiplies by.  This keeps every definition computable and
lets a witness instantiate `R := ℚ`.
-/

/-- The scalar functions GLM uses: `cos`, `sin`, `inversesqrt`, and the
constant `glm::radians` multiplies degrees by. -/
structure TrigModel (R : Type) where
  cos : R → R
  sin : R → R
  invSqrt : R → R
  piOver180 : R

/-- A `glm::mat4` as a 4x4 matrix over `R` (column-vector convention,
as GLM's abstract linear maps compose). -/
abbrev Mat4 (R : Type) := Matrix (Fin 4) (Fin 4) R

/-- `glm::radians`: multiply degrees by `π/180`. -/
def glmRadians [CommRing R] (tm : TrigModel R) (degrees : R) : R :=
  degrees * tm.piOver180

/-- `glm::normalize`: scale the vector by `inversesqrt` of its dot square. -/
def glmNormalize [CommRing R] (invSqrt : R → R) (v : Vec3 R) : Vec3 R :=
  let k := invSqrt (v.x * v.x + v.y * v.y + v.z * v.z)
  ⟨v.x * k, v.y * k, v.z * k⟩

/-- `glm::translate(p)`. -/
def glmTranslate [CommRing R] (p : Vec3 R) : Mat4 R :=
  Matrix.of ![![1, 0, 0, p.x], ![0, 1, 0, p.y], ![0, 0, 1, p.z], ![0, 0, 0, 1]]

/-- `glm::scale(s)`. -/
def glmScale [CommRing R] (s : Vec3 R) : Mat4 R :=
  Matrix.of ![![s.x, 0, 0, 0], ![0, s.y, 0, 0], ![0, 0, s.z, 0], ![0, 0, 0, 1]]

/-- `glm::rotate(angle, v)`: normalize the axis and build the axis-angle
rotation `c·I + (1-c)·aaᵀ + s·[a]ₓ`, embedded in a 4x4 matrix, exactly as
GLM's column-major `Rotate` entries read in row/column form. -/
def glmRotate [CommRing R] (tm : TrigModel R) (angle : R) (v : Vec3 R) :
    Mat4 R :=
  let c := tm.cos angle
  let s := tm.sin angle
  let a := glmNormalize tm.invSqrt v
  Matrix.of
    ![![c + (1 - c) * a.x * a.x, (1 - c) * a.y * a.x - s * a.z,
        (1 - c) * a.z * a.x + s * a.y, 0],
      ![(1 - c) * a.x * a.y + s * a.z, c + (1 - c) * a.y * a.y,
        (1 - c) * a.z * a.y - s * a.x, 0],
      ![(1 - c) * a.x * a.z - s * a.y, (1 - c) * a.y * a.z + s * a.x,
        c + (1 - c) * a.z * a.z, 0],
      ![0, 0, 0, 1]]

/-- The model matrix computed by `SetTransformations`, exactly as the
source expression:
`translate(position) * rotate(radians(Z), (0,0,1)) * rotate(radians(Y),
(0,1,0)) * rotate(radians(X), (1,0,0)) * scale(scaleXYZ)`. -/
def setTransformationsModel [CommRing R] (tm : TrigModel R)
    (scaleXYZ : Vec3 R) (XrotationDegrees YrotationDegrees ZrotationDegrees : R)
    (positionXYZ : Vec3 R) : Mat4 R :=
  glmTranslate positionXYZ *
    glmRotate tm (glmRadians tm ZrotationDegrees) ⟨0, 0, 1⟩ *
    glmRotate tm (glmRadians tm YrotationDegrees) ⟨0, 1, 0⟩ *
    glmRotate tm (glmRadians tm XrotationDegrees) ⟨1, 0, 0⟩ *
    glmScale scaleXYZ

/-- The factors of the source's model-matrix expression, in
multiplication order. -/
def setTransformationsFactors [CommRing R] (tm : TrigModel R)
    (scaleXYZ : Vec3 R) (XrotationDegrees YrotationDegrees ZrotationDegrees : R)
    (positionXYZ : Vec3 R) : List (Mat4 R) :=
  [glmTranslate positionXYZ,
   glmRotate tm (glmRadians tm ZrotationDegrees) ⟨0, 0, 1⟩,
   glmRotate tm (glmRadians tm YrotationDegrees) ⟨0, 1, 0⟩,
   glmRotate tm (glmRadians tm XrotationDegrees) ⟨1, 0, 0⟩,
   glmScale scaleXYZ]

/-- The rotation matrix about the x axis, as the spec's `Rx`. -/
def rotXMat [CommRing R] (tm : TrigModel R) (angle : R) : Mat4 R :=
  Matrix.of ![![1, 0, 0, 0],
              ![0, tm.cos angle, -tm.sin angle, 0],
              ![0, tm.sin angle, tm.cos angle, 0],
              ![0, 0, 0, 1]]

/-- The rotation matrix about the y axis, as the spec's `Ry`. -/
def rotYMat [CommRing R] (tm : TrigModel R) (angle : R) : Mat4 R :=
  Matrix.of ![![tm.cos angle, 0, tm.sin angle, 0],
              ![0, 1, 0, 0],
              ![-tm.sin angle, 0, tm.cos angle, 0],
              ![0, 0, 0, 1]]

/-- The rotation matrix about the z axis, as the spec's `Rz`. -/
def rotZMat [CommRing R] (tm : TrigModel R) (angle : R) : Mat4 R :=
  Matrix.of ![![tm.cos angle, -tm.sin angle, 0, 0],
              ![tm.sin angle, tm.cos angle, 0, 0],
              ![0, 0, 1, 0],
              ![0, 0, 0, 1]]

/-- A concrete rational trig model for witnesses; only `invSqrt 1 = 1`
matters for the theorems. -/
def tmQ : TrigModel ℚ where
  cos := fun _ => 0
  sin := fun _ => 1
  invSqrt := fun _ => 1
  piOver180 := 1

/-! Trace predicates and projections used by the claims. -/

/-- Is the event a mesh draw call. -/
def isDrawEvent : GLEvent → Bool
  | .drawMesh _ => true
  | _ => false

/-- Is the event a texture upload to the GPU (`glTexImage2D`). -/
def isTexUpload : GLEvent → Bool
  | .texImage2D _ => true
  | _ => false

/-- Is the event the upload of the `"model"` matrix uniform. -/
def isModelUpload : GLEvent → Bool
  | .setMat4 nm _ => nm = "model"
  | _ => false

/-- Is the event the upload of the `"bUseTexture"` selection uniform. -/
def isUseTextureUpload : GLEvent → Bool
  | .setInt nm _ => nm = "bUseTexture"
  | _ => false

/-- Is the event the upload of the `"objectTexture"` sampler uniform. -/
def isSamplerUpload : GLEvent → Bool
  | .setSampler2D nm _ => nm = "objectTexture"
  | _ => false

/-- The uniform names written by `SetupSceneLights`. -/
def lightingNames : List String :=
  ["bUseLighting", "dirLight.direction", "dirLight.ambient",
   "dirLight.diffuse", "dirLight.specular", "pointLight.position",
   "pointLight.ambient", "pointLight.diffuse", "pointLight.specular",
   "pointLight.constant", "pointLight.linear", "pointLight.quadratic"]

/-- Is the event the upload of a lighting-constant uniform. -/
def isLightingUpload : GLEvent → Bool
  | .setBool nm _ => lightingNames.contains nm
  | .setVec3 nm _ _ _ => lightingNames.contains nm
  | .setFloat nm _ => lightingNames.contains nm
  | _ => false

/-- Split a trace into the per-draw configuration segments: the `i`-th
result is the list of events after the `i-1`-st draw and before the
`i`-th.  Events after the last draw belong to no segment. -/
def splitSegs (isD : α → Bool) : List α → List α → List (List α)
  | [], _acc => []
  | e :: rest, acc =>
    if isD e then acc.reverse :: splitSegs isD rest []
    else splitSegs isD rest (e :: acc)

/-- The meshes drawn by a trace, in order. -/
def drawsOf (tr : List GLEvent) : List MeshKind :=
  tr.filterMap fun e => match e with
    | .drawMesh m => some m
    | _ => none

/-- The `SetTransformations` arguments of a call, if it is one. -/
def transformArgsOfCall : SceneCall → Option TransformArgs
  | .setTransformations s x y z p => some ⟨s, x, y, z, p⟩
  | _ => none

/-- The `SetShaderTexture` tag/scale arguments of a call, if it is one. -/
def texArgsOfCall : SceneCall → Option (String × ℚ)
  | .setShaderTexture tg sc => some (tg, sc)
  | _ => none

/-- The mesh drawn by a call, if it is a draw. -/
def drawOfCall : SceneCall → Option MeshKind
  | .drawPlaneMesh => some .plane
  | .drawBoxMesh => some .box
  | .drawCylinderMesh => some .cylinder
  | _ => none

/-- Is the call a mesh draw. -/
def isDrawCall (c : SceneCall) : Bool := (drawOfCall c).isSome

/-- Is the call a `SetTransformations` call. -/
def isSetTransformationsCall : SceneCall → Bool
  | .setTransformations .. => true
  | _ => false

/-- Is the call a `SetShaderTexture` call. -/
def isSetShaderTextureCall : SceneCall → Bool
  | .setShaderTexture .. => true
  | _ => false

/-- Iterate `CreateGLTexture` with a loadable 3-channel image `n` times:
`n` successful loads in a row. -/
def loadSuccessN : Nat → SceneManager → SceneManager × List GLEvent
  | 0, st => (st, [])
  | n + 1, st =>
    let r := st.CreateGLTexture (some ⟨1, 1, 3⟩) 7 "textures/extra.png" "extra"
    let next := loadSuccessN n r.2.1
    (next.1, r.2.2 ++ next.2)

/-- States reachable from the constructor by `CreateGLTexture` calls made
while `m_loadedTextures < 16` and by `DestroyGLTextures` calls.
`glGenTextures` is modelled as returning a texture name distinct from the
`(uint32_t)-1` sentinel the class reserves for empty slots. -/
inductive Reached : SceneManager → Prop
  | ctor (shaderPresent : Bool) : Reached (SceneManager.ctor shaderPresent)
  | create (st : SceneManager) (img : Option ImageData) (textureID : Nat)
      (filename tag : String) :
      Reached st → st.m_loadedTextures < 16 →
      textureID % 4294967296 ≠ UINT32_MAX →
      Reached (st.CreateGLTexture img textureID filename tag).2.1
  | destroy (st : SceneManager) :
      Reached st → Reached st.DestroyGLTextures.1

/-- A second state for witnesses: an empty registry whose junk contents
differ from the constructor state. -/
def stJunk : SceneManager where
  m_textureIDs := fun _ => ⟨"junk", 5⟩
  m_loadedTextures := 0
  shaderPresent := true

/-- A texture environment for witnesses: every load yields a 4x4
3-channel image, `glGenTextures` yields `k + 1` for the `k`-th call. -/
def envW : TexEnv := ⟨fun _ => some ⟨4, 4, 3⟩, fun k => k + 1⟩

/-- The search loop distributes over list append, preferring the left part. -/
theorem findSlotGo_append (ids : Nat → TEXTURE_INFO) (tag : String)
    (l1 l2 : List Nat) :
    findSlotGo ids tag (l1 ++ l2) =
      if findSlotGo ids tag l1 = -1 then findSlotGo ids tag l2
      else findSlotGo ids tag l1 := by
  induction l1 with
  | nil => simp [findSlotGo]
  | cons i rest ih =>
    simp only [List.cons_append, findSlotGo]
    by_cases h : (ids i).tag = tag
    · rw [if_pos h, if_pos h, if_neg (by omega : ¬((i : Int) = -1))]
    · rw [if_neg h, if_neg h, List.append_eq, ih]

/-- Master specification of the search over `List.range n`: either no
index below `n` matches and the result is `-1`, or the result is the
least matching index. -/
theorem findSlot_range_spec (ids : Nat → TEXTURE_INFO) (tag : String)
    (n : Nat) :
    (findSlotGo ids tag (List.range n) = -1 ∧
      ∀ i, i < n → (ids i).tag ≠ tag) ∨
    (∃ j, j < n ∧ (ids j).tag = tag ∧ (∀ k, k < j → (ids k).tag ≠ tag) ∧
      findSlotGo ids tag (List.range n) = (j : Int)) := by
  induction n with
  | zero =>
    left
    exact ⟨rfl, fun i hi => absurd hi (Nat.not_lt_zero i)⟩
  | succ n ih =>
    rw [List.range_succ, findSlotGo_append]
    rcases ih with ⟨hneg, hall⟩ | ⟨j, hj, hmatch, hleast, hval⟩
    · rw [hneg, if_pos rfl]
      by_cases h : (ids n).tag = tag
      · right
        refine ⟨n, Nat.lt_succ_self n, h, hall, ?_⟩
        simp [findSlotGo, h]
      · left
        refine ⟨by simp [findSlotGo, h], fun i hi => ?_⟩
        rcases Nat.lt_succ_iff_lt_or_eq.mp hi with h' | h'
        · exact hall i h'
        · subst h'; exact h
    · rw [hval, if_neg (by omega : ¬((j : Int) = -1))]
      exact Or.inr ⟨j, Nat.lt_succ_of_lt hj, hmatch, hleast, rfl⟩

/-- `FindTextureSlot` returns `-1` exactly when no loaded slot matches. -/
theorem FindTextureSlot_eq_neg_one_iff (st : SceneManager) (tag : String) :
    st.FindTextureSlot tag = -1 ↔
      ∀ i, i < st.m_loadedTextures → (st.m_textureIDs i).tag ≠ tag := by
  constructor
  · intro h
    rcases findSlot_range_spec st.m_textureIDs tag st.m_loadedTextures with
      ⟨_, hall⟩ | ⟨j, _, _, _, hval⟩
    · exact hall
    · rw [SceneManager.FindTextureSlot] at h
      rw [h] at hval
      omega
  · intro h
    rcases findSlot_range_spec st.m_textureIDs tag st.m_loadedTextures with
      ⟨hneg, _⟩ | ⟨j, hj, hmatch, _, _⟩
    · exact hneg
    · exact absurd hmatch (h j hj)

/-- A non-negative `FindTextureSlot` result is the least matching index. -/
theorem FindTextureSlot_eq_coe (st : SceneManager) (tag : String) (j : Nat)
    (h : st.FindTextureSlot tag = (j : Int)) :
    j < st.m_loadedTextures ∧ (st.m_textureIDs j).tag = tag ∧
      ∀ k, k < j → (st.m_textureIDs k).tag ≠ tag := by
  rcases findSlot_range_spec st.m_textureIDs tag st.m_loadedTextures with
    ⟨hneg, _⟩ | ⟨j', hj', hmatch, hleast, hval⟩
  · rw [SceneManager.FindTextureSlot] at h
    rw [h] at hneg
    omega
  · rw [SceneManager.FindTextureSlot] at h
    rw [h] at hval
    have : j' = j := by omega
    subst this
    exact ⟨hj', hmatch, hleast⟩

/-- `FindTextureSlot` is `-1` or a natural index. -/
theorem FindTextureSlot_shape (st : SceneManager) (tag : String) :
    st.FindTextureSlot tag = -1 ∨
      ∃ j : Nat, st.FindTextureSlot tag = (j : Int) := by
  rcases findSlot_range_spec st.m_textureIDs tag st.m_loadedTextures with
    ⟨hneg, _⟩ | ⟨j, _, _, _, hval⟩
  · exact Or.inl hneg
  · exact Or.inr ⟨j, hval⟩

/-- The search loop only reads slots whose index is in the list. -/
theorem findSlotGo_congr_list (ids ids' : Nat → TEXTURE_INFO) (tag : String)
    (l : List Nat) (h : ∀ i ∈ l, ids' i = ids i) :
    findSlotGo ids' tag l = findSlotGo ids tag l := by
  induction l with
  | nil => rfl
  | cons i rest ih =>
    simp only [findSlotGo]
    rw [h i (List.mem_cons_self i rest),
      ih (fun k hk => h k (List.mem_cons_of_mem i hk))]

/-- `FindTextureSlot` depends only on the loaded prefix of the registry. -/
theorem FindTextureSlot_congr (st st' : SceneManager) (tag : String)
    (hL : st'.m_loadedTextures = st.m_loadedTextures)
    (hI : ∀ i, i < st.m_loadedTextures → st'.m_textureIDs i = st.m_textureIDs i) :
    st'.FindTextureSlot tag = st.FindTextureSlot tag := by
  rw [SceneManager.FindTextureSlot, SceneManager.FindTextureSlot, hL]
  exact findSlotGo_congr_list _ _ tag _
    (fun i hi => hI i (List.mem_range.mp hi))

theorem glmNormalize_unitZ [CommRing R] (tm : TrigModel R)
    (h : tm.invSqrt 1 = 1) :
    glmNormalize tm.invSqrt (⟨0, 0, 1⟩ : Vec3 R) = ⟨0, 0, 1⟩ := by
  have h1 : ((0 : R) * 0 + 0 * 0 + 1 * 1) = 1 := by ring
  simp only [glmNormalize, h1, h, Vec3.mk.injEq]
  refine ⟨by ring, by ring, by ring⟩

theorem glmRotate_unitZ [CommRing R] (tm : TrigModel R)
    (h : tm.invSqrt 1 = 1) (angle : R) :
    glmRotate tm angle (⟨0, 0, 1⟩ : Vec3 R) = rotZMat tm angle := by
  simp only [glmRotate, glmNormalize_unitZ tm h, rotZMat]
  ext i j
  fin_cases i <;> fin_cases j <;>
    simp [Matrix.of_apply] <;> ring

theorem glmNormalize_unitY [CommRing R] (tm : TrigModel R)
    (h : tm.invSqrt 1 = 1) :
    glmNormalize tm.invSqrt (⟨0, 1, 0⟩ : Vec3 R) = ⟨0, 1, 0⟩ := by
  have h1 : ((0 : R) * 0 + 1 * 1 + 0 * 0) = 1 := by ring
  simp only [glmNormalize, h1, h, Vec3.mk.injEq]
  refine ⟨by ring, by ring, by ring⟩

theorem glmNormalize_unitX [CommRing R] (tm : TrigModel R)
    (h : tm.invSqrt 1 = 1) :
    glmNormalize tm.invSqrt (⟨1, 0, 0⟩ : Vec3 R) = ⟨1, 0, 0⟩ := by
  have h1 : ((1 : R) * 1 + 0 * 0 + 0 * 0) = 1 := by ring
  simp only [glmNormalize, h1, h, Vec3.mk.injEq]
  refine ⟨by ring, by ring, by ring⟩

theorem glmRotate_unitY [CommRing R] (tm : TrigModel R)
    (h : tm.invSqrt 1 = 1) (angle : R) :
    glmRotate tm angle (⟨0, 1, 0⟩ : Vec3 R) = rotYMat tm angle := by
  simp only [glmRotate, glmNormalize_unitY tm h, rotYMat]
  ext i j
  fin_cases i <;> fin_cases j <;> simp [Matrix.of_apply] <;> ring

theorem glmRotate_unitX [CommRing R] (tm : TrigModel R)
    (h : tm.invSqrt 1 = 1) (angle : R) :
    glmRotate tm angle (⟨1, 0, 0⟩ : Vec3 R) = rotXMat tm angle := by
  simp only [glmRotate, glmNormalize_unitX tm h, rotXMat]
  ext i j
  fin_cases i <;> fin_cases j <;> simp [Matrix.of_apply] <;> ring

theorem setTransformationsModel_eq [CommRing R] (tm : TrigModel R)
    (h : tm.invSqrt 1 = 1) (scaleXYZ : Vec3 R)
    (XrotationDegrees YrotationDegrees ZrotationDegrees : R)
    (positionXYZ : Vec3 R) :
    setTransformationsModel tm scaleXYZ XrotationDegrees YrotationDegrees
        ZrotationDegrees positionXYZ =
      glmTranslate positionXYZ *
        rotZMat tm (glmRadians tm ZrotationDegrees) *
        rotYMat tm (glmRadians tm YrotationDegrees) *
        rotXMat tm (glmRadians tm XrotationDegrees) *
        glmScale scaleXYZ := by
  rw [setTransformationsModel, glmRotate_unitZ tm h, glmRotate_unitY tm h,
    glmRotate_unitX tm h]

theorem setTransformationsModel_eq_prod [CommRing R] (tm : TrigModel R)
    (scaleXYZ : Vec3 R)
    (XrotationDegrees YrotationDegrees ZrotationDegrees : R)
    (positionXYZ : Vec3 R) :
    setTransformationsModel tm scaleXYZ XrotationDegrees YrotationDegrees
        ZrotationDegrees positionXYZ =
      (setTransformationsFactors tm scaleXYZ XrotationDegrees
        YrotationDegrees ZrotationDegrees positionXYZ).prod := by
  simp [setTransformationsModel, setTransformationsFactors, mul_assoc]

/-- `execCall` depends on the state only through the shader flag and the
tag-to-slot mapping. -/
theorem execCall_congr (st st' : SceneManager)
    (hS : st.shaderPresent = st'.shaderPresent)
    (hF : ∀ tag, st.FindTextureSlot tag = st'.FindTextureSlot tag)
    (c : SceneCall) : execCall st c = execCall st' c := by
  cases c <;>
    simp [execCall, SceneManager.SetTransformations,
      SceneManager.SetShaderTexture, SceneManager.SetTextureUVScale, hS, hF]

/-- `RenderScene` depends on the state only through the shader flag and
the tag-to-slot mapping. -/
theorem RenderScene_congr (st st' : SceneManager)
    (hS : st.shaderPresent = st'.shaderPresent)
    (hF : ∀ tag, st.FindTextureSlot tag = st'.FindTextureSlot tag) :
    st.RenderScene = st'.RenderScene := by
  rw [SceneManager.RenderScene, SceneManager.RenderScene,
    funext (execCall_congr st st' hS hF)]

/-- Whatever the state, `RenderScene` draws the eight meshes of the
hardcoded scene in order. -/
theorem drawsOf_RenderScene (st : SceneManager) :
    drawsOf st.RenderScene =
      [.plane, .box, .box, .box, .box, .cylinder, .cylinder, .box] := by
  cases hb : st.shaderPresent <;>
    simp [drawsOf, SceneManager.RenderScene, renderSceneCalls, execCall,
      SceneManager.SetTransformations, SceneManager.SetShaderTexture,
      SceneManager.SetTextureUVScale, hb]

/-- Events emitted by `RenderScene` calls are uniform uploads of the
model/texture group or mesh draws; in particular they are never texture
uploads to the GPU and never lighting-constant uploads. -/
theorem execCall_pred_false (st : SceneManager) (c : SceneCall) (e : GLEvent)
    (h : e ∈ execCall st c) :
    isTexUpload e = false ∧ isLightingUpload e = false := by
  cases hb : st.shaderPresent <;>
    cases c <;>
      simp [execCall, SceneManager.SetTransformations,
        SceneManager.SetShaderTexture, SceneManager.SetTextureUVScale, hb] at h <;>
      first
        | (subst h; exact ⟨rfl, rfl⟩)
        | (rcases h with h | h | h <;> subst h <;> exact ⟨rfl, rfl⟩)

/-- An event of the `RenderScene` trace comes from one of its calls. -/
theorem mem_RenderScene (st : SceneManager) (e : GLEvent)
    (h : e ∈ st.RenderScene) : ∃ c ∈ renderSceneCalls, e ∈ execCall st c := by
  rw [SceneManager.RenderScene] at h
  rcases List.mem_flatten.mp h with ⟨blk, hblk, he⟩
  rcases List.mem_map.mp hblk with ⟨c, hc, rfl⟩
  exact ⟨c, hc, he⟩

/-- `RenderScene` performs no GPU texture upload. -/
theorem RenderScene_no_texUpload (st : SceneManager) (e : GLEvent)
    (h : e ∈ st.RenderScene) : isTexUpload e = false := by
  rcases mem_RenderScene st e h with ⟨c, _, he⟩
  exact (execCall_pred_false st c e he).1

/-- `RenderScene` uploads no lighting constant. -/
theorem RenderScene_no_lighting (st : SceneManager) (e : GLEvent)
    (h : e ∈ st.RenderScene) : isLightingUpload e = false := by
  rcases mem_RenderScene st e h with ⟨c, _, he⟩
  exact (execCall_pred_false st c e he).2

/-- Events emitted by `CreateGLTexture` are GL texture-object calls:
never draws, never lighting uploads. -/
theorem CreateGLTexture_pred_false (st : SceneManager) (img : Option ImageData)
    (tid : Nat) (fn tg : String) (e : GLEvent)
    (h : e ∈ (st.CreateGLTexture img tid fn tg).2.2) :
    isDrawEvent e = false ∧ isLightingUpload e = false := by
  cases img with
  | none => simp [SceneManager.CreateGLTexture] at h
  | some image =>
    by_cases h3 : image.colorChannels = 3
    · simp [SceneManager.CreateGLTexture, h3] at h
      rcases h with h | h | h <;> subst h <;> exact ⟨rfl, rfl⟩
    · by_cases h4 : image.colorChannels = 4
      · simp [SceneManager.CreateGLTexture, h3, h4] at h
        rcases h with h | h | h <;> subst h <;> exact ⟨rfl, rfl⟩
      · simp [SceneManager.CreateGLTexture, h3, h4] at h
        subst h; exact ⟨rfl, rfl⟩

/-- Events emitted by the texture-loading fold: never draws, never
lighting uploads. -/
theorem loadTexFold_pred_false (env : TexEnv) :
    ∀ (l : List (String × String)) (k : Nat) (st : SceneManager) (e : GLEvent),
      e ∈ (loadTexFold env k st l).2 →
      isDrawEvent e = false ∧ isLightingUpload e = false := by
  intro l
  induction l with
  | nil => intro k st e h; simp [loadTexFold] at h
  | cons p rest ih =>
    intro k st e h
    rcases p with ⟨fn, tg⟩
    rw [loadTexFold] at h
    rcases List.mem_append.mp h with h | h
    · exact CreateGLTexture_pred_false st (env.img k) (env.texID k) fn tg e h
    · exact ih (k + 1) _ e h

/-- Events of the preparation trace: never mesh draws. -/
theorem PrepareScene_no_draw (st : SceneManager) (env : TexEnv) (e : GLEvent)
    (h : e ∈ (st.PrepareScene env).2) : isDrawEvent e = false := by
  rw [SceneManager.PrepareScene, SceneManager.LoadSceneTextures] at h
  simp only [List.append_assoc, List.mem_append] at h
  rcases h with h | h | h | h
  · exact (loadTexFold_pred_false env sceneTextureFiles 0 st e h).1
  · rcases List.mem_map.mp h with ⟨i, _, rfl⟩; rfl
  · fin_cases h <;> rfl
  · fin_cases h <;> rfl

/-- The lighting uploads of the whole preparation trace are exactly the
`SetupSceneLights` events. -/
theorem PrepareScene_filter_lighting (st : SceneManager) (env : TexEnv) :
    (st.PrepareScene env).2.filter isLightingUpload = SetupSceneLights := by
  rw [SceneManager.PrepareScene, SceneManager.LoadSceneTextures]
  simp only [List.append_assoc, List.filter_append]
  rw [List.filter_eq_nil_iff.mpr
      (fun e he => by simp [(loadTexFold_pred_false env sceneTextureFiles 0 st e he).2]),
    List.filter_eq_nil_iff.mpr
      (fun e he => by
        rcases List.mem_map.mp he with ⟨i, _, rfl⟩
        simp [isLightingUpload])]
  rfl

/-- In `A ++ B`, an element satisfying `p` sits before `B` when `B` is
`p`-free. -/
theorem index_lt_of_suffix_free (A B : List GLEvent) (p : GLEvent → Bool)
    (hB : ∀ e ∈ B, p e = false) (i : Nat) (e : GLEvent)
    (h : (A ++ B)[i]? = some e) (hp : p e = true) : i < A.length := by
  by_contra hge
  push_neg at hge
  rw [List.getElem?_append_right hge] at h
  have hm := List.getElem?_mem h
  simp [hB e hm] at hp

/-- In `A ++ B`, an element satisfying `p` sits after `A` when `A` is
`p`-free. -/
theorem index_ge_of_prefix_free (A B : List GLEvent) (p : GLEvent → Bool)
    (hA : ∀ e ∈ A, p e = false) (j : Nat) (e : GLEvent)
    (h : (A ++ B)[j]? = some e) (hp : p e = true) : A.length ≤ j := by
  by_contra hlt
  push_neg at hlt
  rw [List.getElem?_append_left hlt] at h
  have hm := List.getElem?_mem h
  simp [hA e hm] at hp

/-- Membership in a flattened replication is membership in the block. -/
theorem mem_flatten_replicate (n : Nat) (l : List GLEvent) (e : GLEvent)
    (h : e ∈ (List.replicate n l).flatten) : e ∈ l := by
  rcases List.mem_flatten.mp h with ⟨blk, hblk, he⟩
  rw [List.eq_of_mem_replicate hblk] at he
  exact he

/-- In any program run, every GPU texture upload precedes every draw. -/
theorem programTrace_uploads_before_draws (env : TexEnv) (n : Nat)
    (i j : Nat) (e1 e2 : GLEvent)
    (h1 : (programTrace env n)[i]? = some e1)
    (h2 : (programTrace env n)[j]? = some e2)
    (hu : isTexUpload e1 = true) (hd : isDrawEvent e2 = true) : i < j := by
  simp only [programTrace] at h1 h2
  have hi := index_lt_of_suffix_free
    ((SceneManager.ctor true).PrepareScene env).2 _ isTexUpload
    (fun e he => RenderScene_no_texUpload _ e (mem_flatten_replicate n _ e he))
    i e1 h1 hu
  have hj := index_ge_of_prefix_free
    ((SceneManager.ctor true).PrepareScene env).2 _ isDrawEvent
    (fun e he => PrepareScene_no_draw _ env e he) j e2 h2 hd
  omega

/-- With a non-null shader manager, every per-draw configuration segment
of the `RenderScene` trace uploads the model matrix and both
texture-selection uniforms. -/
theorem RenderScene_segments_config (st : SceneManager)
    (h : st.shaderPresent = true) :
    (splitSegs isDrawEvent st.RenderScene []).all
      (fun seg => seg.any isModelUpload && seg.any isUseTextureUpload &&
        seg.any isSamplerUpload) = true := by
  simp [SceneManager.RenderScene, renderSceneCalls, execCall,
    SceneManager.SetTransformations, SceneManager.SetShaderTexture,
    SceneManager.SetTextureUVScale, h, splitSegs, isDrawEvent,
    isModelUpload, isUseTextureUpload, isSamplerUpload]

/-- Pointwise effect of the `DestroyGLTextures` loop on the registry:
slots below `n` holding a real id are reset, everything else is kept. -/
theorem destroyLoop_ids (ids : Nat → TEXTURE_INFO) (n : Nat) :
    ∀ i, (destroyLoop ids n).1 i =
      if i < n ∧ (ids i).ID ≠ UINT32_MAX then ⟨"/0", UINT32_MAX⟩
      else ids i := by
  induction n with
  | zero =>
    intro i
    simp [destroyLoop]
  | succ n ih =>
    intro i
    have hn_eq : (destroyLoop ids n).1 n = ids n := by
      rw [ih n]
      simp
    simp only [destroyLoop]
    by_cases hn : (ids n).ID ≠ UINT32_MAX
    · rw [if_pos (by rw [hn_eq]; exact hn)]
      dsimp only
      by_cases hi : i = n
      · subst hi
        rw [if_pos rfl, if_pos ⟨Nat.lt_succ_self i, hn⟩]
      · rw [if_neg hi, ih i]
        by_cases hlt : i < n ∧ (ids i).ID ≠ UINT32_MAX
        · rw [if_pos hlt, if_pos ⟨Nat.lt_succ_of_lt hlt.1, hlt.2⟩]
        · rw [if_neg hlt, if_neg (fun hc => hlt ⟨by omega, hc.2⟩)]
    · rw [if_neg (by rw [hn_eq]; exact hn), ih i]
      push_neg at hn
      by_cases hlt : i < n ∧ (ids i).ID ≠ UINT32_MAX
      · rw [if_pos hlt, if_pos ⟨Nat.lt_succ_of_lt hlt.1, hlt.2⟩]
      · rw [if_neg hlt, if_neg]
        intro hc
        rcases Nat.lt_succ_iff_lt_or_eq.mp hc.1 with h' | h'
        · exact hlt ⟨h', hc.2⟩
        · subst h'
          exact hc.2 hn

/-- The registry invariant maintained by the reachable states: the
counter stays within the array, slots at and beyond it hold the reset
value, and occupied slots hold a real texture id. -/
def RegistryInv (st : SceneManager) : Prop :=
  st.m_loadedTextures ≤ 16 ∧
  (∀ i, st.m_loadedTextures ≤ i → st.m_textureIDs i = ⟨"/0", UINT32_MAX⟩) ∧
  (∀ i, i < st.m_loadedTextures → (st.m_textureIDs i).ID ≠ UINT32_MAX)

/-- The store performed on `CreateGLTexture`'s success path preserves the
invariant when the registry is not full and the id is not the sentinel. -/
theorem storeTexture_inv (st : SceneManager) (tag : String) (id : Nat)
    (hinv : RegistryInv st) (hlt : st.m_loadedTextures < 16)
    (hid : id ≠ UINT32_MAX) : RegistryInv (st.storeTexture tag id) := by
  rcases hinv with ⟨_, hsuf, hpre⟩
  refine ⟨by simp only [SceneManager.storeTexture]; omega, ?_, ?_⟩
  · intro i hi
    simp only [SceneManager.storeTexture] at hi ⊢
    rw [if_neg (by omega)]
    exact hsuf i (by omega)
  · intro i hi
    simp only [SceneManager.storeTexture] at hi ⊢
    by_cases h : i = st.m_loadedTextures
    · rw [if_pos h]
      exact hid
    · rw [if_neg h]
      exact hpre i (by omega)

/-- Every reachable state satisfies the registry invariant. -/
theorem Reached_inv (st : SceneManager) (h : Reached st) : RegistryInv st := by
  induction h with
  | ctor b =>
    exact ⟨Nat.zero_le 16, fun i _ => rfl, fun i hi => absurd hi (Nat.not_lt_zero i)⟩
  | create st img tid fn tg hr hlt htid ih =>
    cases img with
    | none => simpa [SceneManager.CreateGLTexture] using ih
    | some image =>
      by_cases h3 : image.colorChannels = 3
      · simpa [SceneManager.CreateGLTexture, h3] using
          storeTexture_inv st tg (tid % 4294967296) ih hlt htid
      · by_cases h4 : image.colorChannels = 4
        · simpa [SceneManager.CreateGLTexture, h3, h4] using
            storeTexture_inv st tg (tid % 4294967296) ih hlt htid
        · simpa [SceneManager.CreateGLTexture, h3, h4] using ih
  | destroy st hr ih =>
    rcases ih with ⟨h16, hsuf, hpre⟩
    refine ⟨Nat.zero_le 16, ?_, ?_⟩
    · intro i _
      show (destroyLoop st.m_textureIDs st.m_loadedTextures).1 i = _
      rw [destroyLoop_ids]
      by_cases hc : i < st.m_loadedTextures ∧ (st.m_textureIDs i).ID ≠ UINT32_MAX
      · rw [if_pos hc]
      · rw [if_neg hc]
        push_neg at hc
        by_cases hi : i < st.m_loadedTextures
        · exact absurd (hc hi) (hpre i hi)
        · exact hsuf i (by omega)
    · intro i hi
      exact absurd hi (Nat.not_lt_zero i)

/-!  The claims. -/

/-- C1: for every `SetTransformations` call with a non-null shader
manager, the single upload to the `"model"` uniform carries the matrix
`translate(positionXYZ) * Rz(radians(Z)) * Ry(radians(Y)) *
Rx(radians(X)) * scale(scaleXYZ)`, composed in exactly that order, with
degrees converted to radians. -/
theorem c1_model_matrix_composition (R : Type) [CommRing R]
    (tm : TrigModel R) (h1 : tm.invSqrt 1 = 1) (st : SceneManager)
    (h2 : st.shaderPresent = true) (sq : Vec3Q) (xq yq zq : ℚ) (pq : Vec3Q)
    (s : Vec3 R) (x y z : R) (p : Vec3 R) :
    st.SetTransformations sq xq yq zq pq =
      [.setMat4 "model" ⟨sq, xq, yq, zq, pq⟩]
    ∧ setTransformationsModel tm s x y z p =
        glmTranslate p * rotZMat tm (glmRadians tm z) *
          rotYMat tm (glmRadians tm y) * rotXMat tm (glmRadians tm x) *
          glmScale s :=
  ⟨by simp [SceneManager.SetTransformations, h2],
   setTransformationsModel_eq tm h1 s x y z p⟩

/-- C1 witness: the theorem applied over `ℚ` in the constructor state. -/
theorem c1_witness :
    tmQ.invSqrt 1 = 1 ∧ (SceneManager.ctor true).shaderPresent = true ∧
    ((SceneManager.ctor true).SetTransformations ⟨2, 3, 4⟩ 10 20 30 ⟨5, 6, 7⟩ =
        [.setMat4 "model" ⟨⟨2, 3, 4⟩, 10, 20, 30, ⟨5, 6, 7⟩⟩]
      ∧ setTransformationsModel tmQ ⟨2, 3, 4⟩ 10 20 30 ⟨5, 6, 7⟩ =
          glmTranslate ⟨5, 6, 7⟩ * rotZMat tmQ (glmRadians tmQ 30) *
            rotYMat tmQ (glmRadians tmQ 20) * rotXMat tmQ (glmRadians tmQ 10) *
            glmScale ⟨2, 3, 4⟩) :=
  ⟨rfl, rfl, c1_model_matrix_composition ℚ tmQ rfl (SceneManager.ctor true) rfl
    ⟨2, 3, 4⟩ 10 20 30 ⟨5, 6, 7⟩ ⟨2, 3, 4⟩ 10 20 30 ⟨5, 6, 7⟩⟩

/-- C2: evaluating the code at the failing input: seventeen successful
`CreateGLTexture` calls leave `m_loadedTextures = 17 > 16`, and the
seventeenth store hits index 16, outside the sixteen-slot array. -/
theorem c2_overflow :
    (loadSuccessN 17 (SceneManager.ctor true)).1.m_loadedTextures = 17
    ∧ ¬ ((loadSuccessN 17 (SceneManager.ctor true)).1.m_loadedTextures ≤ 16)
    ∧ GLEvent.arrayStore 16 ∈ (loadSuccessN 17 (SceneManager.ctor true)).2 :=
  ⟨by decide, by decide, by decide⟩

/-- C3: `FindTextureSlot` returns the smallest loaded index carrying the
tag and `-1` when no loaded entry does; it reads only entries below
`m_loadedTextures` (its result is preserved by any change beyond them),
and in the embedding it is a pure function of the registry. -/
theorem c3_find_texture_slot (st : SceneManager) (tag : String)
    (h : st.m_loadedTextures ≤ 16) :
    (st.FindTextureSlot tag = -1 ↔
      ∀ i, i < st.m_loadedTextures → (st.m_textureIDs i).tag ≠ tag)
    ∧ (∀ j : Nat, st.FindTextureSlot tag = (j : Int) →
        j < st.m_loadedTextures ∧ (st.m_textureIDs j).tag = tag ∧
          ∀ k, k < j → (st.m_textureIDs k).tag ≠ tag)
    ∧ (st.FindTextureSlot tag = -1 ∨
        ∃ j : Nat, st.FindTextureSlot tag = (j : Int))
    ∧ (∀ st' : SceneManager, st'.m_loadedTextures = st.m_loadedTextures →
        (∀ i, i < st.m_loadedTextures → st'.m_textureIDs i = st.m_textureIDs i) →
        st'.FindTextureSlot tag = st.FindTextureSlot tag) :=
  ⟨FindTextureSlot_eq_neg_one_iff st tag,
   fun j hj => FindTextureSlot_eq_coe st tag j hj,
   FindTextureSlot_shape st tag,
   fun st' hL hI => FindTextureSlot_congr st st' tag hL hI⟩

/-- C3 witness: in the empty registry every lookup misses. -/
theorem c3_witness :
    (SceneManager.ctor true).m_loadedTextures ≤ 16 ∧
    (SceneManager.ctor true).FindTextureSlot "wood" = -1 :=
  ⟨by decide,
   (c3_find_texture_slot (SceneManager.ctor true) "wood" (by decide)).1.mpr
     (fun i hi => absurd hi (Nat.not_lt_zero i))⟩

/-- C4: `CreateGLTexture` returns false exactly when the image fails to
load or its channel count is neither 3 nor 4; every false return leaves
the registry unchanged; every true return bumps the counter by one and
tags the newly occupied slot. -/
theorem c4_create_texture (st : SceneManager) (img : Option ImageData)
    (tid : Nat) (fn tg : String) :
    ((st.CreateGLTexture img tid fn tg).1 = false ↔
      img = none ∨ ∃ image, img = some image ∧
        image.colorChannels ≠ 3 ∧ image.colorChannels ≠ 4)
    ∧ ((st.CreateGLTexture img tid fn tg).1 = false →
        (st.CreateGLTexture img tid fn tg).2.1 = st)
    ∧ ((st.CreateGLTexture img tid fn tg).1 = true →
        (st.CreateGLTexture img tid fn tg).2.1.m_loadedTextures =
          st.m_loadedTextures + 1 ∧
        ((st.CreateGLTexture img tid fn tg).2.1.m_textureIDs
          st.m_loadedTextures).tag = tg) := by
  cases img with
  | none => simp [SceneManager.CreateGLTexture]
  | some image =>
    by_cases h3 : image.colorChannels = 3
    · simp [SceneManager.CreateGLTexture, h3, SceneManager.storeTexture]
    · by_cases h4 : image.colorChannels = 4
      · simp [SceneManager.CreateGLTexture, h3, h4, SceneManager.storeTexture]
      · simp [SceneManager.CreateGLTexture, h3, h4]

/-- C4 witness: a failed load leaves the constructor state unchanged. -/
theorem c4_witness :
    ((SceneManager.ctor true).CreateGLTexture none 7 "f.png" "t").2.1 =
      SceneManager.ctor true :=
  (c4_create_texture (SceneManager.ctor true) none 7 "f.png" "t").2.1 rfl

/-- C5 counterexample: at a concrete input the uploaded model matrix is
the product of the factor list of the source expression, and that list
has five entries, so it is not a product of exactly four factors. -/
theorem c5_counterexample :
    setTransformationsModel tmQ ⟨2, 3, 4⟩ 10 20 30 ⟨5, 6, 7⟩ =
      (setTransformationsFactors tmQ ⟨2, 3, 4⟩ 10 20 30 ⟨5, 6, 7⟩).prod
    ∧ ¬ (setTransformationsFactors tmQ ⟨2, 3, 4⟩ 10 20 30 ⟨5, 6, 7⟩).length = 4 :=
  ⟨setTransformationsModel_eq_prod tmQ ⟨2, 3, 4⟩ 10 20 30 ⟨5, 6, 7⟩,
   by decide⟩

/-- C5 amended: the model matrix uploaded by `SetTransformations` is a
product of exactly five matrix factors: a translation, three axis
rotations, and a scale. -/
theorem c5_five_factors (R : Type) [CommRing R] (tm : TrigModel R)
    (s : Vec3 R) (x y z : R) (p : Vec3 R) :
    setTransformationsModel tm s x y z p =
      (setTransformationsFactors tm s x y z p).prod
    ∧ (setTransformationsFactors tm s x y z p).length = 5 :=
  ⟨setTransformationsModel_eq_prod tm s x y z p, rfl⟩

/-- C6: every state draws the same eight meshes in the same order; the
scale/rotation/position, tag/scale and draw arguments of the call
sequence are hardcoded constants; and the trace depends on the state only
through the shader flag and the registry, indeed only through its
tag-to-slot mapping. -/
theorem c6_scene_fixed :
    (∀ st : SceneManager, drawsOf st.RenderScene =
      [.plane, .box, .box, .box, .box, .cylinder, .cylinder, .box])
    ∧ renderSceneCalls.filterMap transformArgsOfCall =
        [⟨⟨50, 1, 50⟩, 0, 0, 0, ⟨0, -0.5, 0⟩⟩,
         ⟨⟨10, 4, 4⟩, 0, 0, 0, ⟨0, 2, 0⟩⟩,
         ⟨⟨11, 0.3, 5⟩, 0, 0, 0, ⟨0, 4.3, 0⟩⟩,
         ⟨⟨1.05, 0.06, 0.7⟩, 0, 16, 0, ⟨-1.4, 2.49, -0.45⟩⟩,
         ⟨⟨1.05, 0.75, 0.06⟩, -90, 16, 0, ⟨-1.4, 2.87, -0.05⟩⟩,
         ⟨⟨0.13, 0.45, 0.13⟩, 0, 0, 0, ⟨0, 2.57, -0.17⟩⟩,
         ⟨⟨0.15, 0.04, 0.15⟩, 0, 0, 0, ⟨0, 2.81, -0.17⟩⟩,
         ⟨⟨0.7, 1.1, 0.35⟩, 0, -13, 0, ⟨1.5, 2.92, 0.7⟩⟩]
    ∧ renderSceneCalls.filterMap texArgsOfCall =
        [("wood", 10), ("whiteWood", 2), ("concrete", 2), ("black", 1),
         ("black", 1), ("gray", 1), ("black", 1), ("green", 1)]
    ∧ renderSceneCalls.filterMap drawOfCall =
        [.plane, .box, .box, .box, .box, .cylinder, .cylinder, .box]
    ∧ (∀ st st' : SceneManager, st.shaderPresent = st'.shaderPresent →
        (∀ tag, st.FindTextureSlot tag = st'.FindTextureSlot tag) →
        st.RenderScene = st'.RenderScene)
    ∧ (∀ st st' : SceneManager, st.shaderPresent = st'.shaderPresent →
        st.m_textureIDs = st'.m_textureIDs →
        st.m_loadedTextures = st'.m_loadedTextures →
        st.RenderScene = st'.RenderScene) :=
  ⟨drawsOf_RenderScene, rfl, rfl, rfl,
   fun st st' hS hF => RenderScene_congr st st' hS hF,
   fun st st' hS hT hL => RenderScene_congr st st' hS
     (fun tag => by
       rw [SceneManager.FindTextureSlot, SceneManager.FindTextureSlot, hT, hL])⟩

/-- C6 witness: the constructor state and an empty registry with
different junk beyond the loaded prefix render identically. -/
theorem c6_witness :
    (SceneManager.ctor true).shaderPresent = stJunk.shaderPresent ∧
    (SceneManager.ctor true).RenderScene = stJunk.RenderScene :=
  ⟨rfl, c6_scene_fixed.2.2.2.2.1 (SceneManager.ctor true) stJunk rfl
    (fun _ => rfl)⟩

/-- C7 counterexample: with a non-null shader manager in the initial
state, it is not the case that every per-draw configuration segment of
`RenderScene` uploads model, texture-selection and lighting-constant
uniforms: no segment contains a lighting upload. -/
theorem c7_counterexample :
    ¬ ((splitSegs isDrawEvent (SceneManager.ctor true).RenderScene []).all
      (fun seg => seg.any isModelUpload && seg.any isUseTextureUpload &&
        seg.any isSamplerUpload && seg.any isLightingUpload) = true) := by
  decide

/-- C7 amended: each per-draw configuration segment of `RenderScene`
uploads the model matrix and both texture-selection uniforms; the
lighting constants are uploaded not per draw call but once, as the
`SetupSceneLights` block of the preparation trace. -/
theorem c7_per_draw_config (st : SceneManager) (env : TexEnv)
    (h : st.shaderPresent = true) :
    (splitSegs isDrawEvent st.RenderScene []).all
      (fun seg => seg.any isModelUpload && seg.any isUseTextureUpload &&
        seg.any isSamplerUpload) = true
    ∧ (∀ e ∈ st.RenderScene, isLightingUpload e = false)
    ∧ (st.PrepareScene env).2.filter isLightingUpload = SetupSceneLights :=
  ⟨RenderScene_segments_config st h,
   fun e he => RenderScene_no_lighting st e he,
   PrepareScene_filter_lighting st env⟩

/-- C7 witness: the amended claim at the constructor state. -/
theorem c7_witness :
    (SceneManager.ctor true).shaderPresent = true ∧
    (splitSegs isDrawEvent (SceneManager.ctor true).RenderScene []).all
      (fun seg => seg.any isModelUpload && seg.any isUseTextureUpload &&
        seg.any isSamplerUpload) = true :=
  ⟨rfl, (c7_per_draw_config (SceneManager.ctor true) envW rfl).1⟩

/-- C8: in the modelled program run the GPU texture uploads of
`PrepareScene` all precede every mesh draw; and in the `RenderScene`
call sequence every draw is preceded, after the previous draw, by a
`SetTransformations` call and a `SetShaderTexture` call. -/
theorem c8_ordering :
    (∀ (env : TexEnv) (n i j : Nat) (e1 e2 : GLEvent),
      (programTrace env n)[i]? = some e1 →
      (programTrace env n)[j]? = some e2 →
      isTexUpload e1 = true → isDrawEvent e2 = true → i < j)
    ∧ (splitSegs isDrawCall renderSceneCalls []).all
        (fun seg => seg.any isSetTransformationsCall &&
          seg.any isSetShaderTextureCall) = true :=
  ⟨fun env n i j e1 e2 h1 h2 hu hd =>
    programTrace_uploads_before_draws env n i j e1 e2 h1 h2 hu hd,
   by decide⟩

/-- C8 witness: in a run with one frame, the first texture upload sits at
index 1 and the first draw at index 43. -/
theorem c8_witness :
    (programTrace envW 1)[1]? = some (.texImage2D "textures/wood.jpg") ∧
    (programTrace envW 1)[43]? = some (.drawMesh .plane) ∧
    isTexUpload (GLEvent.texImage2D "textures/wood.jpg") = true ∧
    isDrawEvent (GLEvent.drawMesh .plane) = true ∧
    (1 : Nat) < 43 :=
  ⟨by decide, by decide, rfl, rfl,
   c8_ordering.1 envW 1 1 43 (.texImage2D "textures/wood.jpg")
     (.drawMesh .plane) (by decide) (by decide) rfl rfl⟩

/-- C9: in every reachable state the counter is at most 16 and every slot
at index at least `m_loadedTextures` holds tag `"/0"` and id
`(uint32_t)-1`: the counter delimits the occupied prefix. -/
theorem c9_registry_occupied_front (st : SceneManager) (h : Reached st) :
    st.m_loadedTextures ≤ 16 ∧
    ∀ i, st.m_loadedTextures ≤ i →
      (st.m_textureIDs i).tag = "/0" ∧ (st.m_textureIDs i).ID = UINT32_MAX := by
  rcases Reached_inv st h with ⟨h16, hsuf, _⟩
  refine ⟨h16, fun i hi => ?_⟩
  rw [hsuf i hi]
  exact ⟨rfl, rfl⟩

/-- C9 witness: the constructor state is reachable and its slot 5 is the
reset value. -/
theorem c9_witness :
    Reached (SceneManager.ctor true) ∧
    ((SceneManager.ctor true).m_textureIDs 5).tag = "/0" ∧
    ((SceneManager.ctor true).m_textureIDs 5).ID = UINT32_MAX :=
  ⟨Reached.ctor true,
   (c9_registry_occupied_front (SceneManager.ctor true) (Reached.ctor true)).2 5
     (Nat.zero_le 5)⟩

/-- C10: for a tag carried by no loaded entry, `SetShaderTexture` with a
non-null shader manager still enables texturing, uploads sampler slot
`-1` and the UV scale, and leaves the registry unchanged; no error is
reported. -/
theorem c10_unknown_tag (st : SceneManager) (tag : String) (scale : ℚ)
    (hs : st.shaderPresent = true)
    (habs : ∀ i, i < st.m_loadedTextures → (st.m_textureIDs i).tag ≠ tag) :
    (st.SetShaderTexture tag scale).1 = st
    ∧ (st.SetShaderTexture tag scale).2 =
        [.setInt "bUseTexture" 1, .setSampler2D "objectTexture" (-1),
         .setVec2 "UVscale" scale scale] := by
  refine ⟨rfl, ?_⟩
  rw [SceneManager.SetShaderTexture]
  simp only [hs, if_true]
  rw [(FindTextureSlot_eq_neg_one_iff st tag).mpr habs]

/-- C10 witness: looking up `"wood"` in the empty registry. -/
theorem c10_witness :
    (SceneManager.ctor true).shaderPresent = true ∧
    ((SceneManager.ctor true).SetShaderTexture "wood" 10).2 =
      [.setInt "bUseTexture" 1, .setSampler2D "objectTexture" (-1),
       .setVec2 "UVscale" 10 10] :=
  ⟨rfl, (c10_unknown_tag (SceneManager.ctor true) "wood" 10 rfl
    (fun i hi => absurd hi (Nat.not_lt_zero i))).2⟩
